import Mathlib

/-!
Verification of the verilator-mcp pipeline against its specification.

This file shallowly embeds the TypeScript sources of the repository
(`src/tools/testbench-generator.ts`, `src/tools/base.ts`,
`src/tools/simulate.ts`, `src/utils/error-handler.ts`,
`src/utils/executor.ts`) as executable Lean definitions and proves or
refutes the frozen claims about them.  JavaScript strings are modelled by
`String` (operated on through their character lists), JavaScript numbers
that hold integral values by `Nat`/`Int`, `null`/`undefined` by `Option`,
and thrown exceptions by `Except String`.
-/

/-! ## JavaScript string primitives -/

/-- JS `\s` (whitespace class), restricted to the ASCII whitespace characters. -/
def isJsSpace (c : Char) : Bool :=
  c = ' ' || c = '\t' || c = '\n' || c = '\r' || c = '\x0b' || c = '\x0c'

/-- JS `\w` word-character class `[A-Za-z0-9_]`. -/
def isWordChar (c : Char) : Bool :=
  c.isAlpha || c.isDigit || c = '_'

/-- `needle` occurs as a contiguous sublist of the haystack. -/
def listInfix (needle : List Char) : List Char → Bool
  | [] => decide (needle = [])
  | c :: cs => needle.isPrefixOf (c :: cs) || listInfix needle cs

/-- JS `String.prototype.includes`: substring containment. -/
def strContains (s sub : String) : Bool :=
  listInfix sub.data s.data

/-- JS `String.prototype.startsWith`. -/
def strStarts (s pre : String) : Bool :=
  pre.data.isPrefixOf s.data

/-- JS `String.prototype.endsWith`. -/
def strEnds (s suf : String) : Bool :=
  suf.data.isSuffixOf s.data

/-- JS `String.prototype.toLowerCase` (ASCII). -/
def strLower (s : String) : String :=
  ⟨s.data.map Char.toLower⟩

/-- JS `String.prototype.toUpperCase` (ASCII). -/
def strUpper (s : String) : String :=
  ⟨s.data.map Char.toUpper⟩

/-- JS `String.prototype.trim` (both ends, whitespace). -/
def strTrim (s : String) : String :=
  ⟨(s.data.dropWhile isJsSpace).reverse.dropWhile isJsSpace |>.reverse⟩

/-- JS `split(sep)` for a single-character separator, on character lists.
`""` splits to `[[]]`, matching JS `"".split` returning `[""]`. -/
def splitCharList (sep : Char) : List Char → List (List Char)
  | [] => [[]]
  | c :: cs =>
    match splitCharList sep cs with
    | [] => if c = sep then [[], []] else [[c]]
    | h :: t => if c = sep then [] :: h :: t else (c :: h) :: t

/-- JS `String.prototype.split` with a one-character separator. -/
def strSplitChar (sep : Char) (s : String) : List String :=
  (splitCharList sep s.data).map String.mk

/-- JS `String.prototype.split(':')` as used on width expressions. -/
def strSplitColon (s : String) : List String :=
  strSplitChar ':' s

/-- First case-insensitive occurrence of one of `toks` (tried in order at each
position, left to right) removed from the character list; the JS
`s.replace(/tok1|tok2/i, '')` idiom. -/
def dropTokenCI (toks : List (List Char)) : List Char → List Char
  | [] => []
  | c :: cs =>
    match toks.find? (fun t => t.isPrefixOf ((c :: cs).map Char.toLower)) with
    | some t => (c :: cs).drop t.length
    | none => c :: dropTokenCI toks cs

/-- JS `s.replace(/tok1|tok2|…/i, '')`: remove the first case-insensitive
match of any of the (lowercase) tokens. -/
def jsReplaceFirstCI (toks : List String) (s : String) : String :=
  ⟨dropTokenCI (toks.map String.data) s.data⟩

/-- JS `parseInt(s)` digits: value of a non-empty decimal digit run. -/
def digitsToNat (ds : List Char) : Nat :=
  ds.foldl (fun acc c => acc * 10 + (c.toNat - 48)) 0

/-- JS `parseInt` (radix 10 or the automatic `0x` hex detection): skip leading
whitespace, optional sign, then the longest digit run; `none` models `NaN`. -/
def jsParseInt (s : String) : Option Int :=
  let cs := s.data.dropWhile isJsSpace
  let (sign, cs) : Int × List Char :=
    match cs with
    | '-' :: rest => (-1, rest)
    | '+' :: rest => (1, rest)
    | rest => (1, rest)
  match cs with
  | '0' :: 'x' :: rest =>
    let hs := rest.takeWhile (fun c => c.isDigit || ('a' ≤ c.toLower && c.toLower ≤ 'f'))
    if hs = [] then none else
      some (sign * (hs.foldl (fun acc c =>
        acc * 16 + (if c.isDigit then c.toNat - 48 else c.toLower.toNat - 87)) 0 : Nat))
  | '0' :: 'X' :: rest =>
    let hs := rest.takeWhile (fun c => c.isDigit || ('a' ≤ c.toLower && c.toLower ≤ 'f'))
    if hs = [] then none else
      some (sign * (hs.foldl (fun acc c =>
        acc * 16 + (if c.isDigit then c.toNat - 48 else c.toLower.toNat - 87)) 0 : Nat))
  | cs =>
    let ds := cs.takeWhile Char.isDigit
    if ds = [] then none else some (sign * (digitsToNat ds : Int))

/-! ## Data model (`src/types/index.ts`) -/

/-- `PortInfo` from `src/types/index.ts`; `direction` and `type` are the TS
string-union values (`'input' | 'output' | 'inout'`, `'wire' | 'reg' | …`),
`width` a positive integer in practice, `arrayDimensions` optional. -/
structure PortInfo where
  name : String
  direction : String
  type : String
  width : Nat
  arrayDimensions : Option (List Nat) := none
deriving Repr, DecidableEq

/-- `ClockDomain` from `src/types/index.ts`, the fields the generator sets:
`name`, optional `resetSignal`, and `resetPolarity`
(`'active_high' | 'active_low'`). -/
structure ClockDomain where
  name : String
  resetSignal : Option String
  resetPolarity : String
deriving Repr, DecidableEq

/-- `ParameterInfo` (name, declared type, default value text). -/
structure ParameterInfo where
  name : String
  type : String
  defaultValue : String
deriving Repr, DecidableEq

/-- `ModuleInfo` from `src/types/index.ts` (fields used by the generator). -/
structure ModuleInfo where
  name : String
  file : String
  ports : List PortInfo
  parameters : List ParameterInfo := []
  clockDomains : List ClockDomain := []
deriving Repr, DecidableEq

/-! ## Clock/reset detection (`TestbenchGeneratorTool.detectClockDomains`) -/

/-- The clock-name test of `detectClockDomains`:
`p.name.match(/^(clk|clock|aclk|pclk|sclk)/i) || p.name.match(/(clk|clock)$/i)`. -/
def isClockName (name : String) : Bool :=
  let l := strLower name
  strStarts l "clk" || strStarts l "clock" || strStarts l "aclk" ||
  strStarts l "pclk" || strStarts l "sclk" ||
  strEnds l "clk" || strEnds l "clock"

/-- The reset-association predicate inside `detectClockDomains`: an input port
whose name contains `rst` or `reset`, tied to the clock by residual-name
overlap after stripping `clk|clock` resp. `rst|reset`. -/
def isResetFor (clockPort : PortInfo) (p : PortInfo) : Bool :=
  decide (p.direction = "input") &&
  (strContains p.name "rst" || strContains p.name "reset") &&
  (strContains p.name (jsReplaceFirstCI ["clk", "clock"] clockPort.name) ||
   strContains clockPort.name (jsReplaceFirstCI ["rst", "reset"] p.name))

/-- `TestbenchGeneratorTool.detectClockDomains` (`testbench-generator.ts`
lines 278–304): filter the single-predicate clock candidates, and for each
find an associated reset and infer its polarity from the letter `n`. -/
def detectClockDomains (ports : List PortInfo) : List ClockDomain :=
  let clockPorts := ports.filter (fun p =>
    decide (p.direction = "input") && isClockName p.name)
  clockPorts.map (fun clockPort =>
    let resetPort := ports.find? (isResetFor clockPort)
    { name := clockPort.name
      resetSignal := resetPort.map PortInfo.name
      resetPolarity :=
        match resetPort with
        | some rp => if strContains rp.name "n" then "active_low" else "active_high"
        | none => "active_high" })

/-! ## Port-declaration parsing (`TestbenchGeneratorTool.parsePortDeclaration`)

The declaration regex
`/^\s*(input|output|inout)\s+(wire|reg|logic|bit)?\s*(?:\[([^\]]+)\])?\s+(\w+)(?:\s*\[([^\]]+)\])?/`
is implemented below with the JS backtracking order: greedy space runs try
longest splits first, optional groups try the matched branch first. -/

/-- The capture groups of the port-declaration regex. -/
structure PortMatch where
  direction : String
  ptype : Option String
  widthExpr : Option String
  name : String
  arrayExpr : Option String
deriving Repr, DecidableEq

/-- Match one of the literal keywords (in order) as a prefix. -/
def matchKeyword (kws : List String) (cs : List Char) : Option (String × List Char) :=
  kws.findSome? (fun k =>
    if k.data.isPrefixOf cs then some (k, cs.drop k.data.length) else none)

/-- `[([^\]]+)\]`: a bracketed, non-empty, `]`-free capture. -/
def parseBracket (cs : List Char) : Option (List Char × List Char) :=
  match cs with
  | '[' :: rest =>
    let content := rest.takeWhile (fun c => decide (c ≠ ']'))
    if content = [] then none
    else
      match rest.drop content.length with
      | ']' :: r => some (content, r)
      | _ => none
  | _ => none

/-- `(?:\s*\[([^\]]+)\])?` after the port name: skip spaces, then a bracketed
capture if present (deterministic, nothing follows in the pattern). -/
def matchArrayPart (cs : List Char) : Option (List Char) :=
  match parseBracket (cs.dropWhile isJsSpace) with
  | some (content, _) => some content
  | none => none

/-- The tail `\s+(\w+)(?:\s*\[([^\]]+)\])?`: at least one space already split
off by the caller; here the cursor sits on the name. -/
def matchNamePart (cs : List Char) : Option (String × Option String) :=
  let nm := cs.takeWhile isWordChar
  if nm = [] then none
  else some (⟨nm⟩, (matchArrayPart (cs.drop nm.length)).map String.mk)

/-- Everything after the direction keyword:
`\s+(wire|reg|logic|bit)?\s*(?:\[([^\]]+)\])?\s+(\w+)(?:\s*\[([^\]]+)\])?`,
searched in the JS backtracking order (greedy `\s+`/`\s*` longest-first,
optional groups matched-first). -/
def matchAfterDirection (cs : List Char) : Option (Option String × Option String × String × Option String) :=
  let k := (cs.takeWhile isJsSpace).length
  (List.range k).findSome? (fun d =>
    let j := k - d
    let r1 := cs.drop j
    let typeOptions : List (Option String × List Char) :=
      match matchKeyword ["wire", "reg", "logic", "bit"] r1 with
      | some (t, r) => [(some t, r), (none, r1)]
      | none => [(none, r1)]
    typeOptions.findSome? (fun tr =>
      let r1' := tr.2
      let k2 := (r1'.takeWhile isJsSpace).length
      (List.range (k2 + 1)).findSome? (fun d2 =>
        let a := k2 - d2
        let r2 := r1'.drop a
        let bracketOptions : List (Option (List Char) × List Char) :=
          match parseBracket r2 with
          | some (w, r) => [(some w, r), (none, r2)]
          | none => [(none, r2)]
        bracketOptions.findSome? (fun br =>
          let r3 := br.2
          let k3 := (r3.takeWhile isJsSpace).length
          (List.range k3).findSome? (fun d3 =>
            let b := k3 - d3
            match matchNamePart (r3.drop b) with
            | some (nm, arr) => some (tr.1, br.1.map String.mk, nm, arr)
            | none => none)))))

/-- The whole port-declaration regex: `^\s*` then the direction alternation,
then `matchAfterDirection`. -/
def matchPortDecl (s : String) : Option PortMatch :=
  let cs := s.data.dropWhile isJsSpace
  match matchKeyword ["input", "output", "inout"] cs with
  | none => none
  | some (dir, rest) =>
    match matchAfterDirection rest with
    | none => none
    | some (t, w, nm, arr) =>
      some { direction := dir, ptype := t, widthExpr := w, name := nm, arrayExpr := arr }

/-- Head of the `split(':')` destructuring (`msbExpr`). -/
def msbPart (w : String) : String :=
  (strSplitColon w).headD ""

/-- Second element of the `split(':')` destructuring (`lsbExpr`). -/
def lsbPart (w : String) : String :=
  ((strSplitColon w).drop 1).headD ""

/-- The width computation of `parsePortDeclaration` (lines 238–254): literal
`msb:lsb` gives `|msb−lsb|+1`; an msb expression containing `WIDTH` gives the
assumed 8; anything else leaves the default 1. -/
def widthOfExpr (widthExpr : Option String) : Nat :=
  match widthExpr with
  | none => 1
  | some w =>
    if strContains w ":" then
      if strContains (msbPart w) "WIDTH" then 8
      else
        match jsParseInt (strTrim (msbPart w)), jsParseInt (strTrim (lsbPart w)) with
        | some msb, some lsb => (msb - lsb).natAbs + 1
        | _, _ => 1
    else 1

/-- The array-dimension computation of `parsePortDeclaration` (lines 263–273). -/
def arrayDimsOfExpr (arrayExpr : Option String) : Option (List Nat) :=
  match arrayExpr with
  | none => none
  | some a =>
    if strContains a ":" then
      match jsParseInt (strTrim (msbPart a)), jsParseInt (strTrim (lsbPart a)) with
      | some msb, some lsb => some [(msb - lsb).natAbs + 1]
      | _, _ => none
    else none

/-- `TestbenchGeneratorTool.parsePortDeclaration` (lines 229–276): `null` on a
regex mismatch, otherwise a `PortInfo` with the computed width (type defaults
to `wire`). -/
def parsePortDeclaration (portDecl : String) : Option PortInfo :=
  match matchPortDecl portDecl with
  | none => none
  | some m =>
    some { name := m.name
           direction := m.direction
           type := m.ptype.getD "wire"
           width := widthOfExpr m.widthExpr
           arrayDimensions := arrayDimsOfExpr m.arrayExpr }

/-! ## Testbench generation (`TestbenchGeneratorTool`, lines 306–582)

The `+=` accumulation loops of the source are rendered as `String.join` over
`List.map`; numeric configuration values (clock period, durations) are
modelled as naturals, which is exact for the integral values the tool is used
with.  Brace and quote characters of the emitted Verilog appear in the string
literals via hexadecimal escapes. -/

/-- The validated parameter object of `TestbenchGeneratorSchema`: `template`,
`protocol` and `stimulusType` keep their TS string-enum values. -/
structure TestbenchGeneratorParams where
  targetFile : String
  targetModule : String
  outputFile : Option String := none
  template : String := "basic"
  protocol : Option String := none
  stimulusType : String := "directed"
  clockPeriod : Nat := 10
  resetDuration : Nat := 100
  simulationTime : Nat := 10000
  generateAssertions : Bool := true
  generateCoverage : Bool := true
  generateCheckers : Bool := true
  parseOnly : Bool := false
deriving Repr, DecidableEq

/-- JS `x || dflt` on an optional string (`undefined` and `""` are falsy). -/
def jsOrStr (o : Option String) (d : String) : String :=
  match o with
  | some s => if s = "" then d else s
  | none => d

/-- `this.protocolTemplates.has(p)`: the constructor registers exactly the
`axi` and `apb` templates. -/
def protocolTemplatesHas (p : String) : Bool :=
  decide (p = "axi") || decide (p = "apb")

/-- Rendering of the JS number `clockPeriod / 2` for integral period inputs:
even periods print as integers, odd periods print with a `.5` fraction. -/
def halfToString (n : Nat) : String :=
  if n % 2 = 0 then toString (n / 2) else toString (n / 2) ++ ".5"

/-- JS `i.toString(16)` for a natural number. -/
def natToHexStr (n : Nat) : String :=
  ⟨Nat.toDigits 16 n⟩

/-- `(moduleInfo.clockDomains || [])[0]?.name || 'clk'`. -/
def firstClockName (mi : ModuleInfo) : String :=
  jsOrStr (mi.clockDomains.head?.map ClockDomain.name) "clk"

/-- `generateHeader` (lines 357–366). -/
def generateHeader (mi : ModuleInfo) (params : TestbenchGeneratorParams) : String :=
  "// Testbench for " ++ mi.name ++ "\n// Generated by Verilator MCP\n// Template: " ++
  params.template ++ "\n// Stimulus Type: " ++ params.stimulusType ++
  "\n\n\x60timescale 1ns/1ps\n\n"

/-- `generateModuleDeclaration` (lines 368–372). -/
def generateModuleDeclaration (mi : ModuleInfo) : String :=
  "module tb_" ++ mi.name ++ "();\n\n"

/-- One line of `generateSignalDeclarations`'s per-port loop. -/
def signalDeclLine (port : PortInfo) : String :=
  let signalType := if port.direction = "input" then "reg" else "wire"
  let width := if port.width > 1 then "[" ++ toString (port.width - 1) ++ ":0] " else ""
  let array :=
    match port.arrayDimensions with
    | none => ""
    | some dims =>
      "[" ++ (match dims.head? with
              | some d => toString (d - 1)
              | none => "NaN") ++ ":0]"
  "  " ++ signalType ++ " " ++ width ++ port.name ++ array ++ ";\n"

/-- The hardcoded seed declaration emitted for random stimulus. -/
def seedDeclLine : String :=
  "  integer seed = 12345;\n"

/-- `generateSignalDeclarations` (lines 374–396). -/
def generateSignalDeclarations (mi : ModuleInfo) (params : TestbenchGeneratorParams) : String :=
  "  // Testbench signals\n" ++
  String.join (mi.ports.map signalDeclLine) ++
  "\n  // Testbench control\n" ++
  "  integer error_count = 0;\n" ++
  "  integer test_count = 0;\n" ++
  (if decide (params.stimulusType = "random") || decide (params.stimulusType = "constrained_random")
   then seedDeclLine else "") ++
  "\n"

/-- The indexed connection strings of `generateDUTInstantiation`'s
`ports.map((port, index) => …)`. -/
def dutPortConnections (mi : ModuleInfo) : List String :=
  mi.ports.enum.map (fun iq =>
    let comma := if iq.1 < mi.ports.length - 1 then "," else ""
    "    ." ++ iq.2.name ++ "(" ++ iq.2.name ++ ")" ++ comma)

/-- `generateDUTInstantiation` (lines 398–411). -/
def generateDUTInstantiation (mi : ModuleInfo) : String :=
  "  // DUT instantiation\n" ++ "  " ++ mi.name ++ " dut (\n" ++
  String.intercalate "\n" (dutPortConnections mi) ++
  "\n  );\n\n"

/-- `generateClockGeneration` (lines 413–422). -/
def generateClockGeneration (mi : ModuleInfo) (params : TestbenchGeneratorParams) : String :=
  "  // Clock generation\n" ++
  String.join (mi.clockDomains.map (fun cd =>
    "  initial " ++ cd.name ++ " = 0;\n" ++
    "  always #(" ++ halfToString params.clockPeriod ++ ") " ++ cd.name ++
    " = ~" ++ cd.name ++ ";\n\n"))

/-- `generateResetSequence` (lines 424–441). -/
def generateResetSequence (mi : ModuleInfo) (params : TestbenchGeneratorParams) : String :=
  "  // Reset sequence\n  initial begin\n" ++
  String.join (mi.clockDomains.map (fun cd =>
    match cd.resetSignal with
    | none => ""
    | some rs =>
      let activeValue := if cd.resetPolarity = "active_low" then "0" else "1"
      let inactiveValue := if cd.resetPolarity = "active_low" then "1" else "0"
      "    " ++ rs ++ " = " ++ activeValue ++ ";\n" ++
      "    #" ++ toString params.resetDuration ++ ";\n" ++
      "    " ++ rs ++ " = " ++ inactiveValue ++ ";\n")) ++
  "  end\n\n"

/-- The input-port filter shared by `generateGenericStimulus` and
`generateCoverage`: inputs that belong to no recognized clock domain, as
clock or as reset. -/
def stimulusInputPorts (mi : ModuleInfo) : List PortInfo :=
  mi.ports.filter (fun p =>
    decide (p.direction = "input") &&
    !(mi.clockDomains.any (fun cd =>
        decide (cd.name = p.name) || decide (cd.resetSignal = some p.name))))

/-- The per-port directed value of `generateGenericStimulus` (lines 497–504):
1-bit ports alternate `i % 2`, narrow ports take the index, wider ports take
a sized hexadecimal literal of the index. -/
def directedValue (port : PortInfo) (i : Nat) : String :=
  if port.width = 1 then toString (i % 2)
  else if port.width ≤ 4 then toString i
  else toString port.width ++ "\x27h" ++ natToHexStr i

/-- One directed test-case block (loop body of lines 494–509). -/
def directedTestCase (inputPorts : List PortInfo) (i : Nat) : String :=
  "    // Test case " ++ toString (i + 1) ++ "\n" ++
  String.join (inputPorts.map (fun port =>
    "    " ++ port.name ++ " = " ++ directedValue port i ++ ";\n")) ++
  "    #100;\n" ++
  "    test_count++;\n\n"

/-- One random assignment line (lines 513–519). -/
def randomAssignLine (port : PortInfo) : String :=
  if port.width ≤ 32 then
    "      " ++ port.name ++ " = $random(seed);\n"
  else
    "      " ++ port.name ++ " = \x7b$random(seed), $random(seed)\x7d;\n"

/-- `generateGenericStimulus` (lines 484–526): five directed vectors or a
`repeat(20)` random block over the non-clock, non-reset input ports. -/
def generateGenericStimulus (mi : ModuleInfo) (params : TestbenchGeneratorParams) : String :=
  let inputPorts := stimulusInputPorts mi
  if params.stimulusType = "directed" then
    "    // Directed test cases\n" ++
    String.join ((List.range 5).map (directedTestCase inputPorts))
  else if params.stimulusType = "random" ∨ params.stimulusType = "constrained_random" then
    "    // Random stimulus\n" ++
    "    repeat(20) begin\n" ++
    String.join (inputPorts.map randomAssignLine) ++
    "      #100;\n" ++
    "      test_count++;\n" ++
    "    end\n"
  else ""

/-- `generateProtocolStimulus` (lines 464–482), reached only for protocols
with a registered template (`axi`, `apb`). -/
def generateProtocolStimulus (p : String) : String :=
  "    // " ++ strUpper p ++ " Protocol Transactions\n" ++
  (if p = "axi" then
    "    // AXI Write Transaction\n" ++
    "    axi_write(32\x27h1000, 32\x27hDEADBEEF);\n" ++
    "    // AXI Read Transaction\n" ++
    "    axi_read(32\x27h1000);\n"
   else if p = "apb" then
    "    // APB Write Transaction\n" ++
    "    apb_write(32\x27h100, 32\x27h12345678);\n" ++
    "    // APB Read Transaction\n" ++
    "    apb_read(32\x27h100);\n"
   else "")

/-- `generateStimulus` (lines 443–462). -/
def generateStimulus (mi : ModuleInfo) (params : TestbenchGeneratorParams) : String :=
  "  // Stimulus generation\n" ++
  "  initial begin\n" ++
  "    // Wait for reset\n" ++
  "    #" ++ toString (params.resetDuration + 10) ++ ";\n\n" ++
  (match params.protocol with
   | some p => if protocolTemplatesHas p then generateProtocolStimulus p
               else generateGenericStimulus mi params
   | none => generateGenericStimulus mi params) ++
  "\n    // End simulation\n" ++
  "    #" ++ toString params.simulationTime ++ ";\n" ++
  "    $display(\"Simulation completed. Errors: %d, Tests: %d\", error_count, test_count);\n" ++
  "    $finish;\n" ++
  "  end\n\n"

/-- `generateCheckers` (lines 528–535). -/
def generateCheckers (mi : ModuleInfo) : String :=
  "  // Response checking\n" ++
  "  always @(posedge " ++ firstClockName mi ++ ") begin\n" ++
  "    // Add your checking logic here\n" ++
  "    // Example: if (output !== expected) error_count++;\n" ++
  "  end\n\n"

/-- `generateAssertions` (lines 537–551): one unknown-value assertion per
output port. -/
def generateAssertions (mi : ModuleInfo) : String :=
  "  // Assertions\n" ++
  String.join ((mi.ports.filter (fun p => decide (p.direction = "output"))).map (fun port =>
    "  // Check that " ++ port.name ++ " is never X or Z\n" ++
    "  assert property (@(posedge " ++ firstClockName mi ++ ") \n" ++
    "    !$isunknown(" ++ port.name ++ ")\n" ++
    "  ) else $error(\"" ++ port.name ++ " is X or Z\");\n\n"))

/-- `generateCoverage` (lines 553–573): a coverpoint per narrow (≤ 8 bit)
non-clock, non-reset input. -/
def generateCoverage (mi : ModuleInfo) : String :=
  "  // Coverage\n" ++
  "  covergroup cg @(posedge " ++ firstClockName mi ++ ");\n" ++
  String.join ((stimulusInputPorts mi).map (fun port =>
    if port.width ≤ 8 then
      "    " ++ port.name ++ "_cp: coverpoint " ++ port.name ++ ";\n"
    else "")) ++
  "  endgroup\n\n" ++
  "  cg cg_inst = new();\n\n"

/-- `generateWaveformDumping` (lines 575–582). -/
def generateWaveformDumping (mi : ModuleInfo) : String :=
  "  // Waveform dumping\n  initial begin\n    $dumpfile(\"tb_" ++ mi.name ++
  ".vcd\");\n    $dumpvars(0, tb_" ++ mi.name ++ ");\n  end\n"

/-- `TestbenchGeneratorTool.generateTestbench` (lines 306–355): the full
emission sequence with the three feature blocks gated on the configuration. -/
def generateTestbench (mi : ModuleInfo) (params : TestbenchGeneratorParams) : String :=
  generateHeader mi params ++
  generateModuleDeclaration mi ++
  generateSignalDeclarations mi params ++
  generateDUTInstantiation mi ++
  generateClockGeneration mi params ++
  generateResetSequence mi params ++
  generateStimulus mi params ++
  (if params.generateCheckers then generateCheckers mi else "") ++
  (if params.generateAssertions then generateAssertions mi else "") ++
  (if params.generateCoverage then generateCoverage mi else "") ++
  generateWaveformDumping mi ++
  "\nendmodule\n"

/-! ## Output classification (`ErrorHandler.parseVerilatorOutput`,
`src/utils/error-handler.ts` lines 13–64)

The two line shapes
`/^%(\w+):\s*(.+?):(\d+)(?::(\d+))?\s*:\s*(.+)$/` and `/^%(\w+):\s*(.+)$/`
are implemented with the JS backtracking order: the lazy file group tries
shortest-first, greedy space runs longest-first, the optional column group
matched-first. -/

/-- `ParsedError` from `error-handler.ts`: the severity keyword is stored
lowercased and unvalidated, locations are optional. -/
structure ParsedError where
  type : String
  file : Option String := none
  line : Option Nat := none
  column : Option Nat := none
  message : String
deriving Repr, DecidableEq

/-- Tail match `\s*(.+)$`: greedy spaces, then at least one residual
character; an all-space tail backtracks to leave its last character as the
message. -/
def msgTail (cs : List Char) : Option String :=
  let m := cs.dropWhile isJsSpace
  if m ≠ [] then some ⟨m⟩
  else
    match cs.getLast? with
    | some c => some ⟨[c]⟩
    | none => none

/-- Tail match `\s*:\s*(.+)$` after the line/column digits. -/
def colonMsgTail (cs : List Char) : Option String :=
  match cs.dropWhile isJsSpace with
  | ':' :: rest => msgTail rest
  | _ => none

/-- The suffix `:(\d+)(?::(\d+))?\s*:\s*(.+)$` after the file group: line
number, optional column (matched branch preferred), then the message tail. -/
def afterFileTail (cs : List Char) : Option (Nat × Option Nat × String) :=
  match cs with
  | ':' :: r3 =>
    let d1 := r3.takeWhile Char.isDigit
    if d1 = [] then none
    else
      let r4 := r3.drop d1.length
      let withColumn : Option (Nat × Option Nat × String) :=
        match r4 with
        | ':' :: r5 =>
          let d2 := r5.takeWhile Char.isDigit
          if d2 = [] then none
          else (colonMsgTail (r5.drop d2.length)).map
            (fun msg => (digitsToNat d1, some (digitsToNat d2), msg))
        | _ => none
      match withColumn with
      | some v => some v
      | none => (colonMsgTail r4).map (fun msg => (digitsToNat d1, none, msg))
  | _ => none

/-- `\s*(.+?):(\d+)(?::(\d+))?\s*:\s*(.+)$` after `%type:`: greedy leading
spaces (longest first), then the lazy file group (shortest first). -/
def locatedAfterType (r2 : List Char) : Option (String × Nat × Option Nat × String) :=
  let k := (r2.takeWhile isJsSpace).length
  (List.range (k + 1)).findSome? (fun d =>
    let ci := r2.drop (k - d)
    (List.range ci.length).findSome? (fun fm1 =>
      let f := fm1 + 1
      (afterFileTail (ci.drop f)).map (fun t => (⟨ci.take f⟩, t))))

/-- The located line shape `%severity: file:line[:column]: message`. -/
def matchLocatedLine (line : String) : Option ParsedError :=
  match line.data with
  | '%' :: rest =>
    let ty := rest.takeWhile isWordChar
    if ty = [] then none
    else
      match rest.drop ty.length with
      | ':' :: r2 =>
        (locatedAfterType r2).map (fun t =>
          { type := strLower ⟨ty⟩, file := some t.1, line := some t.2.1
            column := t.2.2.1, message := t.2.2.2 })
      | _ => none
  | _ => none

/-- The unlocated line shape `%severity: message`. -/
def matchSimpleLine (line : String) : Option ParsedError :=
  match line.data with
  | '%' :: rest =>
    let ty := rest.takeWhile isWordChar
    if ty = [] then none
    else
      match rest.drop ty.length with
      | ':' :: r2 =>
        (msgTail r2).map (fun msg =>
          { type := strLower ⟨ty⟩, message := msg })
      | _ => none
  | _ => none

/-- Per-line classification: the located shape is tried first, then the
simple shape; lines matching neither produce nothing. -/
def classifyLine (line : String) : Option ParsedError :=
  match matchLocatedLine line with
  | some e => some e
  | none => matchSimpleLine line

/-- `ErrorHandler.parseVerilatorOutput` (lines 13–48): split on newlines and
collect the classified lines. -/
def parseVerilatorOutput (output : String) : List ParsedError :=
  (strSplitChar '\n' output).filterMap classifyLine

/-- `ErrorHandler.extractWarnings` (lines 50–64): the warning-severity
diagnostics, formatted with their optional location (a zero column is falsy
in JS and therefore omitted). -/
def extractWarnings (output : String) : List String :=
  (parseVerilatorOutput output).filterMap (fun e =>
    if e.type = "warning" then
      let location :=
        match e.file with
        | some f =>
          f ++ ":" ++ (match e.line with | some n => toString n | none => "undefined") ++
          (match e.column with
           | some c => if c = 0 then "" else ":" ++ toString c
           | none => "")
        | none => ""
      some (if location ≠ "" then location ++ ": " ++ e.message else e.message)
    else none)

/-! ## Process execution (`CommandExecutor.execute`,
`src/utils/executor.ts` lines 19–93)

The promise-based handler wiring is embedded as a step function over an
explicit state, driven by a trace of asynchronous events (data chunks, timer
expiries, child exit).  Node semantics modelled: a promise settles at most
once; `child.kill(sig)` on a live process records the signal and sets
`child.killed` (the flag means "a signal was sent", not "the process
exited"); `clearTimeout` suppresses a later firing of the main timer.
Wall-clock durations are not modelled (`duration` is reported as 0). -/

/-- `CommandResult` from `executor.ts`. -/
structure CommandResult where
  stdout : String
  stderr : String
  exitCode : Int
  duration : Nat
deriving Repr, DecidableEq

/-- JS `exitCode || 0` on the nullable close code: `null` and `0` are falsy. -/
def jsOrIntZero (c : Option Int) : Int :=
  match c with
  | some n => if n = 0 then 0 else n
  | none => 0

/-- The asynchronous events `execute`'s handlers react to. -/
inductive ExecEvent where
  | stdoutData (s : String)
  | stderrData (s : String)
  | childError (msg : String)
  | childClose (code : Option Int)
  | timerFire
  | graceFire
deriving Repr, DecidableEq

/-- The configured limits of one `execute` call. -/
structure ExecConfig where
  timeout : Nat := 300000
  maxBuffer : Nat := 10485760
deriving Repr, DecidableEq

/-- The observable state of one `execute` invocation. -/
structure ExecState where
  stdout : String
  stderr : String
  timedOut : Bool
  killed : Bool
  exited : Bool
  signalsSent : List String
  settled : Option (Except String CommandResult)
  timerCleared : Bool
  graceArmed : Bool
deriving Repr

/-- State before any event: empty buffers, armed main timer. -/
def initExecState : ExecState :=
  { stdout := "", stderr := "", timedOut := false, killed := false
    exited := false, signalsSent := [], settled := none
    timerCleared := false, graceArmed := false }

/-- A promise settles only once; later resolve/reject calls are ignored. -/
def promiseSettle (st : ExecState) (r : Except String CommandResult) : ExecState :=
  match st.settled with
  | some _ => st
  | none => { st with settled := some r }

/-- `child.kill(sig)`: on a live process, send the signal and set the
`killed` flag; on an exited process, nothing happens. -/
def childKill (st : ExecState) (sig : String) : ExecState :=
  if st.exited then st
  else { st with signalsSent := st.signalsSent ++ [sig], killed := true }

/-- One event handler of `CommandExecutor.execute` (lines 43–91). -/
def execStep (cfg : ExecConfig) (st : ExecState) (ev : ExecEvent) : ExecState :=
  match ev with
  | .stdoutData s =>
    let st := { st with stdout := st.stdout ++ s }
    if st.stdout.length > cfg.maxBuffer then
      promiseSettle (childKill st "SIGTERM")
        (.error ("stdout exceeded buffer limit of " ++ toString cfg.maxBuffer ++ " bytes"))
    else st
  | .stderrData s =>
    let st := { st with stderr := st.stderr ++ s }
    if st.stderr.length > cfg.maxBuffer then
      promiseSettle (childKill st "SIGTERM")
        (.error ("stderr exceeded buffer limit of " ++ toString cfg.maxBuffer ++ " bytes"))
    else st
  | .childError msg =>
    promiseSettle { st with timerCleared := true } (.error msg)
  | .childClose code =>
    let st := { st with timerCleared := true, exited := true }
    if st.timedOut then
      promiseSettle st (.error ("Command timed out after " ++ toString cfg.timeout ++ "ms"))
    else
      promiseSettle st (.ok { stdout := st.stdout, stderr := st.stderr
                              exitCode := jsOrIntZero code, duration := 0 })
  | .timerFire =>
    if st.timerCleared then st
    else
      let st := childKill { st with timedOut := true } "SIGTERM"
      { st with graceArmed := true }
  | .graceFire =>
    if st.graceArmed then
      if !st.killed then childKill st "SIGKILL" else st
    else st

/-- Run one `execute` invocation over a trace of events. -/
def runExec (cfg : ExecConfig) (events : List ExecEvent) : ExecState :=
  events.foldl (execStep cfg) initExecState

/-! ## Tool boundary (`AbstractTool.execute`, `src/tools/base.ts` lines 28–88)

The asynchronous collaborators (schema validation, configuration probing,
the command execution, the tool-specific `processResult`) are oracles in an
environment record; a thrown exception anywhere in the `try` block is an
`Except.error` and lands in the `catch` clause. -/

/-- `ToolResult<T>` from `src/types/index.ts`. -/
structure MCPToolResult (α : Type) where
  success : Bool
  data : Option α := none
  error : Option String := none
  warnings : Option (List String) := none
  executionTime : Option Nat := none
deriving Repr, DecidableEq

/-- The collaborators of one `AbstractTool.execute` call. -/
structure ExecuteEnv (α : Type) where
  parseParams : Except String Unit
  configAvailable : Bool
  toolAvailable : Bool
  binaryName : String
  runCommand : Except String CommandResult
  processResult : CommandResult → Except String (MCPToolResult α)
  elapsed : Nat

/-- `AbstractTool.execute` (lines 28–88): validate, probe availability, run
the command, delegate to `processResult`, attach extracted warnings and the
elapsed time; any thrown failure becomes a `success: false` result carrying
the exception message. -/
def executeTool {α : Type} (env : ExecuteEnv α) : MCPToolResult α :=
  let attempt : Except String (MCPToolResult α) := do
    let _ ← env.parseParams
    if !env.configAvailable then
      throw "Verilator is not installed or not found in PATH"
    else if !env.toolAvailable then
      throw ("Verilator tool \x27" ++ env.binaryName ++ "\x27 is not available")
    else do
      let result ← env.runCommand
      let processed ← env.processResult result
      let warnings := extractWarnings result.stderr
      let processed :=
        if warnings.length > 0 then { processed with warnings := some warnings }
        else processed
      pure { processed with executionTime := some env.elapsed }
  match attempt with
  | .ok r => r
  | .error msg =>
    { success := false, data := none, error := some msg
      warnings := none, executionTime := some env.elapsed }

/-! ## The simulate tool (`SimulateTool`, `src/tools/simulate.ts`)

`processResult` orchestrates testbench generation, compilation, execution
and classification.  File-system effects and the nested tool invocations are
environment oracles; the assertion scanner and the labeled-number scanner
are the tool's own regex helpers, embedded below. -/

/-- `AssertionResult` from `src/types/index.ts`. -/
structure AssertionResult where
  name : String
  file : String
  line : Nat
  type : String
  passed : Bool
  failures : Nat
  message : Option String := none
deriving Repr, DecidableEq

/-- `SimulationStatistics` from `src/types/index.ts` (fields set by the
simulate tool). -/
structure SimulationStatistics where
  cycleCount : Nat
  eventCount : Nat
  memoryUsage : Nat
  cpuTime : Nat
deriving Repr, DecidableEq

/-- `SimulationResult` from `src/types/index.ts`. -/
structure SimulationResult where
  passed : Bool
  simulationTime : Nat
  realTime : Nat
  logFile : Option String := none
  waveformFile : Option String := none
  coverageFile : Option String := none
  assertions : Option (List AssertionResult) := none
  errors : List String := []
  warnings : List String := []
  statistics : Option SimulationStatistics := none
deriving Repr, DecidableEq

/-- Case-insensitive literal prefix test (pattern given lowercase). -/
def ciIsPrefix (pat : String) (cs : List Char) : Bool :=
  pat.data.isPrefixOf (cs.map Char.toLower)

/-- One attempt of
`/Assertion\s+(\w+)\s+at\s+(.+):(\d+)\s+(passed|failed):\s*(.+)?/i` at the
head of the character list; on success returns the record and the remainder
after the match (the scanner's `lastIndex`).  The status comparison of the
source (`status === 'passed'`) is case-sensitive on the captured text even
though the pattern matches case-insensitively. -/
def matchAssertionAt (cs : List Char) : Option (AssertionResult × List Char) :=
  if ciIsPrefix "assertion" cs then
    let r1 := cs.drop 9
    let s1 := (r1.takeWhile isJsSpace).length
    if s1 = 0 then none else
    let r2 := r1.drop s1
    let nm := r2.takeWhile isWordChar
    if nm = [] then none else
    let r3 := r2.drop nm.length
    let s2 := (r3.takeWhile isJsSpace).length
    if s2 = 0 then none else
    let r4 := r3.drop s2
    if ciIsPrefix "at" r4 then
      let r5 := r4.drop 2
      let s3max := (r5.takeWhile isJsSpace).length
      (List.range s3max).findSome? (fun d3 =>
        let s3 := s3max - d3
        let r6 := r5.drop s3
        let fmax := (r6.takeWhile (fun c => decide (c ≠ '\n'))).length
        (List.range fmax).findSome? (fun df =>
          let f := fmax - df
          match r6.drop f with
          | ':' :: r7 =>
            let ds := r7.takeWhile Char.isDigit
            if ds = [] then none else
            let r8 := r7.drop ds.length
            let s4 := (r8.takeWhile isJsSpace).length
            if s4 = 0 then none else
            let r9 := r8.drop s4
            let status : Option (List Char) :=
              if ciIsPrefix "passed" r9 then some (r9.take 6)
              else if ciIsPrefix "failed" r9 then some (r9.take 6)
              else none
            match status with
            | none => none
            | some stChars =>
              match r9.drop 6 with
              | ':' :: r10 =>
                let t := r10.dropWhile isJsSpace
                let pair : Option String × List Char :=
                  if t = [] then (none, [])
                  else
                    let m := t.takeWhile (fun c => decide (c ≠ '\n'))
                    (some ⟨m⟩, t.drop m.length)
                some ({ name := ⟨nm⟩, file := ⟨r6.take f⟩, line := digitsToNat ds
                        type := "assert"
                        passed := decide (stChars = "passed".data)
                        failures := if stChars = "failed".data then 1 else 0
                        message := pair.1 }, pair.2)
              | _ => none
          | _ => none))
    else none
  else none

/-- The global scan of `parseAssertions` (fuel-bounded by the text length):
successive non-overlapping matches, advancing one character on failure. -/
def scanAssertionsAux : Nat → List Char → List AssertionResult
  | 0, _ => []
  | _, [] => []
  | fuel + 1, c :: cs =>
    match matchAssertionAt (c :: cs) with
    | some (a, rest) => a :: scanAssertionsAux fuel rest
    | none => scanAssertionsAux fuel cs

/-- `SimulateTool.parseAssertions` (`simulate.ts` lines 256–275). -/
def parseAssertions (output : String) : List AssertionResult :=
  scanAssertionsAux (output.data.length + 1) output.data

/-- `SimulateTool.extractNumber` for the labeled-count patterns
`/(\d+)\s+cycles?/i` and `/(\d+)\s+events?/i`: first position whose greedy
digit run is followed by whitespace and the (lowercase) label. -/
def scanLabeledNumber (label : String) : List Char → Option Nat
  | [] => none
  | c :: cs =>
    let ds := (c :: cs).takeWhile Char.isDigit
    if ds = [] then scanLabeledNumber label cs
    else
      let r := (c :: cs).drop ds.length
      let sp := (r.takeWhile isJsSpace).length
      if sp > 0 && ciIsPrefix label (r.drop sp) then some (digitsToNat ds)
      else scanLabeledNumber label cs

/-- JS `x || dflt` on an optional number (`undefined` and `0` are falsy). -/
def jsOrNat (o : Option Nat) (d : Nat) : Nat :=
  match o with
  | some n => if n = 0 then d else n
  | none => d

/-- Node `path.join` for the simple two-segment joins the simulate tool
performs (no normalization cases arise). -/
def pathJoin (a b : String) : String :=
  a ++ "/" ++ b

/-- The result shape of the compile tool as consumed by `simulate.ts`
(`compileResult.data.outputDir`, `compileResult.data.executable`); the
compile tool itself is outside the embedded sources. -/
structure CompileData where
  outputDir : String
  executable : Option String := none
deriving Repr, DecidableEq

/-- `TestbenchResult` from `src/types/index.ts` (fields the simulate tool
reads). -/
structure TestbenchResult where
  generatedFile : String
  template : String := "basic"
  features : List String := []
deriving Repr, DecidableEq

/-- The validated parameter object of `SimulateSchema` (`simulate.ts`
lines 11–30). -/
structure SimulateParams where
  design : String
  testbench : Option String := none
  topModule : Option String := none
  autoGenerateTestbench : Bool := true
  outputDir : String := "sim_output"
  timeout : Nat := 60000
  enableWaveform : Bool := true
  waveformFormat : String := "vcd"
  waveformFile : Option String := none
  enableCoverage : Bool := false
  enableAssertions : Bool := true
  optimizationLevel : Nat := 2
  useExistingBuild : Bool := false
  simulationTime : Option Nat := none
  verbose : Bool := false
deriving Repr, DecidableEq

/-- The asynchronous collaborators of one `SimulateTool.processResult` call:
nested tool invocations, file-system probes and the simulation subprocess. -/
structure SimulateEnv where
  detectedTop : Except String String
  tbGen : MCPToolResult TestbenchResult
  compile : MCPToolResult CompileData
  fsAccessExecutable : Bool
  fsWriteLogOk : Bool
  simRun : Except String CommandResult
  heapUsed : Nat

/-- `SimulateTool.processResult` (`simulate.ts` lines 54–198): resolve or
generate the testbench, compile or reuse a build, run the simulation, then
assemble the `SimulationResult`.  The returned object on a completed
simulation is `{ success: result.passed, data: result, warnings? }` — with no
top-level `error` field; thrown failures land in the catch clause instead. -/
def simulateProcessResult (env : SimulateEnv) (params : SimulateParams) :
    MCPToolResult SimulationResult :=
  let attempt : Except String (MCPToolResult SimulationResult) := do
    let _testbenchFile : Option String ←
      match params.testbench with
      | some tb => pure (some tb)
      | none =>
        if params.autoGenerateTestbench then do
          let _moduleName ←
            match params.topModule with
            | some m => pure m
            | none => env.detectedTop
          match env.tbGen.success, env.tbGen.data with
          | true, some d => pure (some d.generatedFile)
          | _, _ =>
            throw ("Failed to generate testbench: " ++ (env.tbGen.error.getD "Unknown error"))
        else pure none
    let _exec : String × String ←
      if params.useExistingBuild then
        let buildDir := if strEnds params.design "_dir" then params.design else "obj_dir"
        let moduleName := params.topModule.getD "top"
        let executablePath := pathJoin buildDir ("V" ++ moduleName)
        if env.fsAccessExecutable then pure (buildDir, executablePath)
        else throw "ENOENT: no such file or directory"
      else
        match env.compile.success, env.compile.data with
        | true, some d =>
          pure (d.outputDir,
            jsOrStr d.executable (pathJoin d.outputDir ("V" ++ params.topModule.getD "top")))
        | _, _ =>
          throw ("Compilation failed: " ++ (env.compile.error.getD "Unknown error"))
    let simResult ← env.simRun
    if !env.fsWriteLogOk then throw "EACCES: log write failed"
    let parsed := parseVerilatorOutput simResult.stderr
    let result : SimulationResult :=
      { passed := decide (simResult.exitCode = 0)
        simulationTime := jsOrNat params.simulationTime 10000
        realTime := simResult.duration
        logFile := some (pathJoin params.outputDir "simulation.log")
        waveformFile :=
          if params.enableWaveform then
            some (pathJoin params.outputDir
              (jsOrStr params.waveformFile ("simulation." ++ params.waveformFormat)))
          else none
        coverageFile :=
          if params.enableCoverage then some (pathJoin params.outputDir "coverage.dat")
          else none
        assertions := some (parseAssertions simResult.stdout)
        errors := ((parsed.filter (fun e => decide (e.type = "error"))).map ParsedError.message)
        warnings := ((parsed.filter (fun e => decide (e.type = "warning"))).map ParsedError.message)
        statistics := some
          { cycleCount := jsOrNat (scanLabeledNumber "cycle" simResult.stdout.data) 0
            eventCount := jsOrNat (scanLabeledNumber "event" simResult.stdout.data) 0
            memoryUsage := env.heapUsed
            cpuTime := simResult.duration } }
    pure { success := result.passed, data := some result, error := none
           warnings := if result.warnings.length > 0 then some result.warnings else none
           executionTime := none }
  match attempt with
  | .ok r => r
  | .error msg =>
    { success := false, data := none, error := some msg
      warnings := none, executionTime := none }

/-! ## Concrete instances used by the witnesses and counterexamples -/

/-- The counter example module of the end-to-end scenario. -/
def c1Module : ModuleInfo :=
  { name := "counter"
    file := "counter.v"
    ports := [{ name := "clk", direction := "input", type := "wire", width := 1 },
              { name := "rst_n", direction := "input", type := "wire", width := 1 },
              { name := "en", direction := "input", type := "wire", width := 1 },
              { name := "count", direction := "output", type := "reg", width := 8 }]
    clockDomains := [{ name := "clk", resetSignal := some "rst_n", resetPolarity := "active_low" }] }

/-- A default generation configuration for the counter module. -/
def c1Config : TestbenchGeneratorParams :=
  { targetFile := "counter.v", targetModule := "counter" }

/-- Simulate-tool collaborators for a run whose simulation binary exits with
code 1 and prints nothing: every effect succeeds, only the exit code fails. -/
def c2SimEnv : SimulateEnv :=
  { detectedTop := .ok "top"
    tbGen := { success := true }
    compile := { success := true }
    fsAccessExecutable := true
    fsWriteLogOk := true
    simRun := .ok { stdout := "", stderr := "", exitCode := 1, duration := 5 }
    heapUsed := 0 }

/-- Simulate parameters reusing an existing build with a supplied testbench. -/
def c2SimParams : SimulateParams :=
  { design := "d.v", testbench := some "tb.sv", topModule := some "top", useExistingBuild := true }

/-- The boundary environment around that simulate run: validation and
availability succeed, the dispatcher invocation succeeds. -/
def c2ExecEnv : ExecuteEnv SimulationResult :=
  { parseParams := .ok ()
    configAvailable := true
    toolAvailable := true
    binaryName := "verilator"
    runCommand := .ok { stdout := "", stderr := "", exitCode := 0, duration := 1 }
    processResult := fun _ => .ok (simulateProcessResult c2SimEnv c2SimParams)
    elapsed := 3 }

/-- A boundary environment whose parameter validation throws. -/
def c2FailEnv : ExecuteEnv SimulationResult :=
  { parseParams := .error "Required"
    configAvailable := true
    toolAvailable := true
    binaryName := "verilator"
    runCommand := .ok { stdout := "", stderr := "", exitCode := 0, duration := 0 }
    processResult := fun _ => .ok { success := true }
    elapsed := 7 }

/-- An 8-bit input named `clk`: matches the clock-name conventions but is not
a single-bit port. -/
def c3Ports : List PortInfo :=
  [{ name := "clk", direction := "input", type := "wire", width := 8 }]

/-- A conventional single-bit clock input. -/
def c3GoodPorts : List PortInfo :=
  [{ name := "clk", direction := "input", type := "wire", width := 1 }]

/-- A declaration with a literal numeric bit-range. -/
def c4LiteralDecl : String := "input [7:0] x"

/-- The capture groups the declaration regex produces for `c4LiteralDecl`. -/
def c4LiteralMatch : PortMatch :=
  { direction := "input", ptype := none, widthExpr := some "7:0", name := "x", arrayExpr := none }

/-- The explicit named binding `.name(name)` emitted for a port by
`generateDUTInstantiation` (without the positional comma). -/
def dutBinding (p : PortInfo) : String :=
  "    ." ++ p.name ++ "(" ++ p.name ++ ")"

/-- A connection string is the binding of `p`: either the comma-terminated
form of a non-final position or the bare form of the final position. -/
def bindingPred (p : PortInfo) (s : String) : Bool :=
  decide (s = dutBinding p ++ ",") || decide (s = dutBinding p)

/-- A two-port module for the binding-list witness. -/
def c5Module : ModuleInfo :=
  { name := "m"
    file := "m.v"
    ports := [{ name := "a", direction := "input", type := "wire", width := 1 },
              { name := "b", direction := "output", type := "wire", width := 1 }] }

/-- A generation configuration for the two-port module. -/
def c5Config : TestbenchGeneratorParams :=
  { targetFile := "m.v", targetModule := "m" }

/-- A module with a clock domain and input ports of the three directed-value
width classes (1 bit, 4 bits, 16 bits). -/
def c6Module : ModuleInfo :=
  { name := "m"
    file := "m.v"
    ports := [{ name := "clk", direction := "input", type := "wire", width := 1 },
              { name := "en", direction := "input", type := "wire", width := 1 },
              { name := "d", direction := "input", type := "wire", width := 4 },
              { name := "w", direction := "input", type := "wire", width := 16 },
              { name := "q", direction := "output", type := "wire", width := 1 }]
    clockDomains := [{ name := "clk", resetSignal := none, resetPolarity := "active_high" }] }

/-- A directed-stimulus configuration (the schema defaults). -/
def c6Config : TestbenchGeneratorParams :=
  { targetFile := "m.v", targetModule := "m" }

/-- A portless module: the signal-declaration block then consists of the
control declarations only. -/
def c7Module : ModuleInfo :=
  { name := "m", file := "m.v", ports := [] }

/-- A random-stimulus configuration. -/
def c7ConfigA : TestbenchGeneratorParams :=
  { targetFile := "m.v", targetModule := "m", stimulusType := "random" }

/-- A second random-stimulus configuration differing from `c7ConfigA` in
every numeric setting and in the input file. -/
def c7ConfigB : TestbenchGeneratorParams :=
  { targetFile := "other.v", targetModule := "m", stimulusType := "random"
    clockPeriod := 42, resetDuration := 7, simulationTime := 999 }

/-- A single-input module for the random-stimulus witness. -/
def c7Module2 : ModuleInfo :=
  { name := "m2", file := "m2.v"
    ports := [{ name := "a", direction := "input", type := "wire", width := 8 }] }

/-! ## Helper lemmas -/

/-- Strings with equal character data are equal. -/
theorem strExt {a b : String} (h : a.data = b.data) : a = b :=
  congrArg String.mk h

/-- Appending the empty string is the identity. -/
theorem strAppendEmpty (a : String) : a ++ "" = a :=
  strExt (by rw [String.data_append]; exact List.append_nil a.data)

/-- String append is associative. -/
theorem strAppendAssoc (a b c : String) : a ++ b ++ c = a ++ (b ++ c) :=
  strExt (by simp only [String.data_append]; exact List.append_assoc a.data b.data c.data)

/-- Cancellation around a separator character that occurs in neither prefix:
if `a ++ sep :: x = b ++ sep :: y` with `sep` absent from `a` and `b`, the
prefixes and suffixes agree. -/
theorem sepCancel (sep : Char) :
    ∀ (a : List Char) (b : List Char) (x y : List Char), sep ∉ a → sep ∉ b →
      a ++ sep :: x = b ++ sep :: y → a = b ∧ x = y := by
  intro a
  induction a with
  | nil =>
    intro b x y _ hb h
    cases b with
    | nil => simpa using h
    | cons d b' =>
      simp only [List.nil_append, List.cons_append, List.cons.injEq] at h
      exact absurd (h.1 ▸ List.mem_cons_self d b') (by simpa [← h.1] using hb)
  | cons c a' ih =>
    intro b x y ha hb h
    cases b with
    | nil =>
      simp only [List.cons_append, List.nil_append, List.cons.injEq] at h
      exact absurd (h.1 ▸ List.mem_cons_self c a') (by simpa [h.1] using ha)
    | cons d b' =>
      simp only [List.cons_append, List.cons.injEq] at h
      obtain ⟨rfl, h2⟩ := h
      have := ih b' x y (fun hm => ha (List.mem_cons_of_mem _ hm))
        (fun hm => hb (List.mem_cons_of_mem _ hm)) h2
      exact ⟨by rw [this.1], this.2⟩

/-- Two DUT bindings (with arbitrary positional-comma suffixes) can only be
equal when the underlying port names are equal, provided the names are
parenthesis-free identifiers. -/
theorem dutBindingClash (p q : PortInfo) (c₁ c₂ : String)
    (hp : '(' ∉ p.name.data) (hq : '(' ∉ q.name.data)
    (h : dutBinding q ++ c₁ = dutBinding p ++ c₂) : q.name = p.name := by
  have hd := congrArg String.data h
  simp only [dutBinding, String.data_append] at hd
  simp only [List.append_assoc] at hd
  have hd' : "    .".data ++ (q.name.data ++ ('(' :: (q.name.data ++ (')' :: c₁.data)))) =
      "    .".data ++ (p.name.data ++ ('(' :: (p.name.data ++ (')' :: c₂.data)))) := by
    simpa using hd
  have hcut := List.append_cancel_left hd'
  exact strExt (sepCancel '(' q.name.data p.name.data _ _ hq hp hcut).1

/-- Counting matching bindings over the indexed connection list reduces to
counting matching ports, whenever the predicate is insensitive to the
positional comma. -/
theorem countP_enumFrom_bindings (P : String → Bool) (g : PortInfo → Bool) (N : Nat) :
    ∀ (l : List PortInfo) (n : Nat),
      (∀ i q, q ∈ l → P (dutBinding q ++ (if i < N - 1 then "," else "")) = g q) →
      ((l.enumFrom n).map (fun iq =>
        dutBinding iq.2 ++ (if iq.1 < N - 1 then "," else ""))).countP P = l.countP g := by
  intro l
  induction l with
  | nil => intro n _; rfl
  | cons q l ih =>
    intro n hPg
    simp only [List.enumFrom, List.map_cons, List.countP_cons]
    rw [ih (n + 1) (fun i r hr => hPg i r (List.mem_cons_of_mem _ hr)),
      hPg n q (List.mem_cons_self q l)]

/-- In a duplicate-free list, exactly one element equals a given member. -/
theorem countP_eq_one_of_nodup {α : Type} [DecidableEq α] :
    ∀ (l : List α), l.Nodup → ∀ a ∈ l, l.countP (fun x => decide (x = a)) = 1 := by
  intro l
  induction l with
  | nil => intro _ a ha; cases ha
  | cons b l ih =>
    intro hnd a ha
    rw [List.countP_cons]
    rcases List.mem_cons.mp ha with rfl | ha'
    · have : l.countP (fun x => decide (x = a)) = 0 :=
        List.countP_eq_zero.mpr (fun x hx => by
          simp only [decide_eq_true_eq]
          intro hxa
          exact (List.nodup_cons.mp hnd).1 (hxa ▸ hx))
      simp [this]
    · have hba : b ≠ a := fun hba => (List.nodup_cons.mp hnd).1 (hba ▸ ha')
      rw [ih (List.nodup_cons.mp hnd).2 a ha']
      simp [hba]

/-! ## Claim theorems -/

/-- C1: the testbench synthesizer is deterministic — two calls with equal
module-interface and generation-configuration inputs produce byte-identical
testbench text.  The synthesizer is embedded as the pure function
`generateTestbench` of exactly these two inputs (the source consults no
other state: its protocol registry is a constant built in the constructor),
so equal inputs give equal output text. -/
theorem c1_synthesize_deterministic (mi₁ mi₂ : ModuleInfo)
    (p₁ p₂ : TestbenchGeneratorParams) (hm : mi₁ = mi₂) (hp : p₁ = p₂) :
    (generateTestbench mi₁ p₁).data = (generateTestbench mi₂ p₂).data := by
  subst hm; subst hp; rfl

/-- Witness for C1 at the counter module and the default configuration. -/
theorem c1_synthesize_deterministic_witness :
    (generateTestbench c1Module c1Config).data = (generateTestbench c1Module c1Config).data :=
  c1_synthesize_deterministic c1Module c1Module c1Config c1Config rfl rfl

/-- C3 counterexample: an 8-bit input named `clk` is classified as a clock —
`detectClockDomains` produces a domain whose `clockPortName` refers to it,
yet no input port of width 1 with that name exists, so the claimed width-1
guarantee fails on the code. -/
theorem c3_width_counterexample :
    detectClockDomains c3Ports =
      [{ name := "clk", resetSignal := none, resetPolarity := "active_high" }] ∧
    ¬ ∃ p ∈ c3Ports, p.name = "clk" ∧ p.direction = "input" ∧ p.width = 1 := by
  exact ⟨rfl, by decide⟩

/-- C3 (amended): every detected clock domain's `clockPortName` refers to an
existing input port whose name matches the clock-name conventions; the
detector imposes no width restriction. -/
theorem c3_clock_domain_refs (ports : List PortInfo) (cd : ClockDomain)
    (h : cd ∈ detectClockDomains ports) :
    ∃ p, p ∈ ports ∧ p.direction = "input" ∧ isClockName p.name = true ∧ p.name = cd.name := by
  unfold detectClockDomains at h
  simp only [List.mem_map, List.mem_filter, Bool.and_eq_true, decide_eq_true_eq] at h
  obtain ⟨q, ⟨hq, hdir, hclk⟩, hcd⟩ := h
  exact ⟨q, hq, hdir, hclk, by rw [← hcd]⟩

/-- Witness for C3's amended statement at a conventional 1-bit clock port. -/
theorem c3_clock_domain_refs_witness :
    ∃ p, p ∈ c3GoodPorts ∧ p.direction = "input" ∧ isClockName p.name = true ∧ p.name = "clk" :=
  c3_clock_domain_refs c3GoodPorts
    { name := "clk", resetSignal := none, resetPolarity := "active_high" } (by decide)

/-- C9: the timeout path of `CommandExecutor.execute` evaluated on a process
that ignores the graceful signal.  After the main timer and the 5-second
grace timer both fire, only `SIGTERM` has been sent — the `!child.killed`
test is already false once `SIGTERM` was sent, so the forceful `SIGKILL`
escalation never happens — and any eventual close still rejects with the
timeout error (the run is never resolved successfully). -/
theorem c9_timeout_escalation :
    (runExec {} [.timerFire, .graceFire]).timedOut = true ∧
    (runExec {} [.timerFire, .graceFire]).signalsSent = ["SIGTERM"] ∧
    (runExec {} [.timerFire, .graceFire]).exited = false ∧
    (runExec {} [.timerFire, .graceFire]).settled = none ∧
    (runExec {} [.timerFire, .graceFire, .childClose none]).settled =
      some (.error "Command timed out after 300000ms") :=
  ⟨rfl, rfl, rfl, rfl, rfl⟩

/-- C10: a resolved (non-timed-out) run always carries an integer
`exitCode`: the close handler maps a `null` close code through `|| 0` to
exit code 0, making a signal-terminated child indistinguishable from a
successful exit. -/
theorem c10_exit_code_never_null :
    (∀ code : Option Int, (runExec {} [.childClose code]).settled =
      some (.ok { stdout := "", stderr := "", exitCode := jsOrIntZero code, duration := 0 })) ∧
    jsOrIntZero none = 0 ∧
    runExec {} [.childClose none] = runExec {} [.childClose (some 0)] :=
  ⟨fun _ => rfl, rfl, rfl⟩

/-- Witness for C10 at a concrete non-zero close code. -/
theorem c10_exit_code_never_null_witness :
    (runExec {} [.childClose (some 7)]).settled =
      some (.ok { stdout := "", stderr := "", exitCode := jsOrIntZero (some 7), duration := 0 }) :=
  c10_exit_code_never_null.1 (some 7)

/-- C8: classifying `%Error: top.v:12:4: syntax error` yields exactly the one
located error diagnostic, and any text all of whose lines match neither
recognized shape classifies to the empty diagnostic sequence (the
classifier is a total function, so it never throws). -/
theorem c8_classify_diagnostics :
    parseVerilatorOutput "%Error: top.v:12:4: syntax error" =
      [{ type := "error", file := some "top.v", line := some 12, column := some 4,
         message := "syntax error" }] ∧
    ∀ text : String, (∀ line ∈ strSplitChar '\n' text, classifyLine line = none) →
      parseVerilatorOutput text = [] := by
  refine ⟨rfl, fun text h => ?_⟩
  unfold parseVerilatorOutput
  exact List.filterMap_eq_nil_iff.mpr h

/-- Witness for C8's unrecognized-text case. -/
theorem c8_classify_diagnostics_witness : parseVerilatorOutput "hello\nworld" = [] :=
  c8_classify_diagnostics.2 "hello\nworld" (by decide)

/-- C4 counterexample: the two free-identifier bit-ranges `N-1:0` and
`WIDTH-1:0` receive different widths (1 and 8), so there is no single
documented fallback width substituted for every free-identifier range —
only msb expressions containing the literal `WIDTH` receive the documented
fallback 8, all others silently keep the default 1. -/
theorem c4_fallback_counterexample :
    parsePortDeclaration "input [N-1:0] d" =
      some { name := "d", direction := "input", type := "wire", width := 1,
             arrayDimensions := none } ∧
    parsePortDeclaration "input [WIDTH-1:0] d" =
      some { name := "d", direction := "input", type := "wire", width := 8,
             arrayDimensions := none } ∧
    (1 : Nat) ≠ 8 :=
  ⟨rfl, rfl, by decide⟩

/-- C4 (amended): on every declaration matching the port regex, extraction
returns a port (totality); a literal numeric range `msb:lsb` yields width
`|msb−lsb|+1`; an msb expression containing `WIDTH` yields the documented
fallback 8; any other non-numeric range keeps the default width 1. -/
theorem c4_width_resolution (decl : String) (m : PortMatch)
    (hm : matchPortDecl decl = some m) :
    ∃ p, parsePortDeclaration decl = some p ∧
      (∀ w, m.widthExpr = some w → strContains w ":" = true →
        strContains (msbPart w) "WIDTH" = true → p.width = 8) ∧
      (∀ w (i j : Int), m.widthExpr = some w → strContains w ":" = true →
        strContains (msbPart w) "WIDTH" = false →
        jsParseInt (strTrim (msbPart w)) = some i →
        jsParseInt (strTrim (lsbPart w)) = some j →
        p.width = (i - j).natAbs + 1) ∧
      (∀ w, m.widthExpr = some w → strContains w ":" = true →
        strContains (msbPart w) "WIDTH" = false →
        (jsParseInt (strTrim (msbPart w)) = none ∨ jsParseInt (strTrim (lsbPart w)) = none) →
        p.width = 1) ∧
      (m.widthExpr = none → p.width = 1) := by
  refine ⟨{ name := m.name, direction := m.direction, type := m.ptype.getD "wire",
            width := widthOfExpr m.widthExpr, arrayDimensions := arrayDimsOfExpr m.arrayExpr },
    ?_, ?_, ?_, ?_, ?_⟩
  · unfold parsePortDeclaration
    rw [hm]
  · intro w hw hcolon hWIDTH
    simp [widthOfExpr, hw, hcolon, hWIDTH]
  · intro w i j hw hcolon hWIDTH hi hj
    simp [widthOfExpr, hw, hcolon, hWIDTH, hi, hj]
  · intro w hw hcolon hWIDTH hnone
    rcases hnone with hmsb | hlsb
    · simp [widthOfExpr, hw, hcolon, hWIDTH, hmsb]
    · rcases hm2 : jsParseInt (strTrim (msbPart w)) with _ | v <;>
        simp [widthOfExpr, hw, hcolon, hWIDTH, hm2, hlsb]
  · intro hnone
    simp [widthOfExpr, hnone]

/-- Witness for C4's amended statement at the literal range `7:0`. -/
theorem c4_width_resolution_witness :
    ∃ p, parsePortDeclaration c4LiteralDecl = some p ∧ p.width = 8 := by
  obtain ⟨p, hp, _, hlit, _, _⟩ := c4_width_resolution c4LiteralDecl c4LiteralMatch (by rfl)
  refine ⟨p, hp, ?_⟩
  have := hlit "7:0" 7 0 rfl (by rfl) (by rfl) (by rfl) (by rfl)
  simpa using this

/-- C6: under a directed-stimulus configuration the generic stimulus is
exactly the five enumerated test-case blocks over the non-clock, non-reset
input ports; within them a 1-bit port takes the alternating values
`0,1,0,1,0`, a port of width 2–4 takes the iteration index, and a wider port
takes a sized hexadecimal literal of the index. -/
theorem c6_directed_stimulus (mi : ModuleInfo) (params : TestbenchGeneratorParams)
    (h : params.stimulusType = "directed") :
    generateGenericStimulus mi params =
      "    // Directed test cases\n" ++
      String.join ((List.range 5).map (directedTestCase (stimulusInputPorts mi))) ∧
    (∀ p : PortInfo, p.width = 1 →
      (List.range 5).map (directedValue p) = ["0", "1", "0", "1", "0"]) ∧
    (∀ (p : PortInfo) (i : Nat), p.width ≠ 1 → p.width ≤ 4 →
      directedValue p i = toString i) ∧
    (∀ (p : PortInfo) (i : Nat), 4 < p.width →
      directedValue p i = toString p.width ++ "\x27h" ++ natToHexStr i) ∧
    (∀ p : PortInfo, p ∈ stimulusInputPorts mi ↔
      p ∈ mi.ports ∧ p.direction = "input" ∧
        ∀ cd ∈ mi.clockDomains, cd.name ≠ p.name ∧ cd.resetSignal ≠ some p.name) := by
  refine ⟨?_, ?_, ?_, ?_, ?_⟩
  · simp [generateGenericStimulus, h]
  · intro p hw
    have hv : ∀ i, directedValue p i = toString (i % 2) := by
      intro i
      simp [directedValue, hw]
    rw [funext hv]
    rfl
  · intro p i h1 h4
    simp [directedValue, h1, h4]
  · intro p i h4
    have h1 : p.width ≠ 1 := by omega
    have h4' : ¬ p.width ≤ 4 := by omega
    simp [directedValue, h1, h4']
  · intro p
    simp only [stimulusInputPorts, List.mem_filter, Bool.and_eq_true, decide_eq_true_eq,
      Bool.not_eq_true', List.any_eq_false, Bool.or_eq_false_iff, decide_eq_false_iff_not,
      Bool.or_eq_true, not_or]

/-- Witness for C6 at a module with a clock domain and inputs of all three
width classes. -/
theorem c6_directed_stimulus_witness :
    generateGenericStimulus c6Module c6Config =
      "    // Directed test cases\n" ++
      String.join ((List.range 5).map (directedTestCase (stimulusInputPorts c6Module))) ∧
    (List.range 5).map
      (directedValue { name := "en", direction := "input", type := "wire", width := 1 }) =
      ["0", "1", "0", "1", "0"] := by
  obtain ⟨h1, h2, _, _, _⟩ := c6_directed_stimulus c6Module c6Config rfl
  exact ⟨h1, h2 _ rfl⟩

/-- C7 counterexample: the seed of the random stimulus is not supplied by the
configuration — it is the hardcoded testbench literal `12345`.  Two random
configurations differing in every numeric setting emit the identical signal
block containing `integer seed = 12345;`, and the configuration type carries
no seed field at all. -/
theorem c7_seed_counterexample :
    generateSignalDeclarations c7Module c7ConfigA =
      "  // Testbench signals\n\n  // Testbench control\n  integer error_count = 0;\n  integer test_count = 0;\n  integer seed = 12345;\n\n" ∧
    generateSignalDeclarations c7Module c7ConfigB = generateSignalDeclarations c7Module c7ConfigA ∧
    c7ConfigA ≠ c7ConfigB ∧
    strContains (generateSignalDeclarations c7Module c7ConfigA) "integer seed = 12345;" = true :=
  ⟨rfl, rfl, by decide, by decide⟩

/-- C7 (amended): under a random or constrained-random configuration the
generic stimulus is a `repeat(20)` block of `$random(seed)` assignments to
the non-clock, non-reset input ports, and the signal block declares the seed
as the fixed literal `12345` — reproducible because the seed is a constant,
not configuration-supplied. -/
theorem c7_random_stimulus (mi : ModuleInfo) (params : TestbenchGeneratorParams)
    (h : params.stimulusType = "random" ∨ params.stimulusType = "constrained_random") :
    seedDeclLine = "  integer seed = 12345;\n" ∧
    (∃ pre, generateSignalDeclarations mi params = pre ++ seedDeclLine ++ "\n") ∧
    generateGenericStimulus mi params =
      "    // Random stimulus\n" ++ "    repeat(20) begin\n" ++
      String.join ((stimulusInputPorts mi).map randomAssignLine) ++
      "      #100;\n" ++ "      test_count++;\n" ++ "    end\n" ∧
    (∀ p : PortInfo, p.width ≤ 32 →
      randomAssignLine p = "      " ++ p.name ++ " = $random(seed);\n") := by
  refine ⟨rfl, ?_, ?_, ?_⟩
  · refine ⟨"  // Testbench signals\n" ++ String.join (mi.ports.map signalDeclLine) ++
      "\n  // Testbench control\n" ++ "  integer error_count = 0;\n" ++
      "  integer test_count = 0;\n", ?_⟩
    rcases h with h | h <;>
      simp [generateSignalDeclarations, h, strAppendAssoc]
  · rcases h with h | h <;> simp [generateGenericStimulus, h]
  · intro p hp
    simp [randomAssignLine, hp]

/-- Witness for C7's amended statement at a single-input module. -/
theorem c7_random_stimulus_witness :
    generateGenericStimulus c7Module2 c7ConfigA =
      "    // Random stimulus\n" ++ "    repeat(20) begin\n" ++
      String.join ((stimulusInputPorts c7Module2).map randomAssignLine) ++
      "      #100;\n" ++ "      test_count++;\n" ++ "    end\n" ∧
    randomAssignLine { name := "a", direction := "input", type := "wire", width := 8 } =
      "      a = $random(seed);\n" := by
  obtain ⟨_, _, h3, h4⟩ := c7_random_stimulus c7Module2 c7ConfigA (Or.inl rfl)
  exact ⟨h3, h4 _ (by decide)⟩

/-- C2 counterexample: a public tool operation can return `success: false`
with no error message.  The simulate tool, on a run whose simulation binary
merely exits non-zero (no exception anywhere), returns
`{ success: false, data: … }` with no top-level `error`, and the
`execute` boundary passes that through. -/
theorem c2_missing_error_counterexample :
    (executeTool c2ExecEnv).success = false ∧
    (executeTool c2ExecEnv).error = none ∧
    (simulateProcessResult c2SimEnv c2SimParams).success = false ∧
    (simulateProcessResult c2SimEnv c2SimParams).error = none :=
  ⟨rfl, rfl, rfl, rfl⟩

/-- C2 (amended): `AbstractTool.execute` never lets an exception escape — it
always returns a structured result with a success flag.  Every failure the
boundary itself detects (invalid parameters, unavailable toolchain, a
rejecting command execution, a throwing `processResult`) yields
`success: false` together with an error message; the only way a result can
be `success: false` without an error message is that the tool-specific
`processResult` returned such a value itself. -/
theorem c2_boundary_results {α : Type} (env : ExecuteEnv α) :
    (∀ m, env.parseParams = .error m → executeTool env =
      { success := false, data := none, error := some m, warnings := none,
        executionTime := some env.elapsed }) ∧
    (env.parseParams = .ok () → env.configAvailable = false → executeTool env =
      { success := false, data := none,
        error := some "Verilator is not installed or not found in PATH",
        warnings := none, executionTime := some env.elapsed }) ∧
    (env.parseParams = .ok () → env.configAvailable = true → env.toolAvailable = false →
      executeTool env =
      { success := false, data := none,
        error := some ("Verilator tool \x27" ++ env.binaryName ++ "\x27 is not available"),
        warnings := none, executionTime := some env.elapsed }) ∧
    (∀ m, env.parseParams = .ok () → env.configAvailable = true → env.toolAvailable = true →
      env.runCommand = .error m → executeTool env =
      { success := false, data := none, error := some m, warnings := none,
        executionTime := some env.elapsed }) ∧
    (∀ m cr, env.parseParams = .ok () → env.configAvailable = true →
      env.toolAvailable = true → env.runCommand = .ok cr →
      env.processResult cr = .error m → executeTool env =
      { success := false, data := none, error := some m, warnings := none,
        executionTime := some env.elapsed }) ∧
    ((executeTool env).success = false → (executeTool env).error = none →
      ∃ cr t, env.runCommand = .ok cr ∧ env.processResult cr = .ok t ∧
        t.success = false ∧ t.error = none) := by
  have k1 : ∀ m, env.parseParams = .error m → executeTool env =
      { success := false, data := none, error := some m, warnings := none,
        executionTime := some env.elapsed } := by
    intro m h
    simp [executeTool, h, Except.instMonad, Except.bind, Except.map, Except.pure,
      bind, Functor.map, pure]
  have k2 : env.parseParams = .ok () → env.configAvailable = false → executeTool env =
      { success := false, data := none,
        error := some "Verilator is not installed or not found in PATH",
        warnings := none, executionTime := some env.elapsed } := by
    intro h hc
    simp [executeTool, h, hc, Except.instMonad, Except.bind, Except.map, Except.pure,
      bind, Functor.map, pure, throw, throwThe, MonadExceptOf.throw]
  have k3 : env.parseParams = .ok () → env.configAvailable = true →
      env.toolAvailable = false → executeTool env =
      { success := false, data := none,
        error := some ("Verilator tool \x27" ++ env.binaryName ++ "\x27 is not available"),
        warnings := none, executionTime := some env.elapsed } := by
    intro h hc ht
    simp [executeTool, h, hc, ht, Except.instMonad, Except.bind, Except.map, Except.pure,
      bind, Functor.map, pure, throw, throwThe, MonadExceptOf.throw]
  have k4 : ∀ m, env.parseParams = .ok () → env.configAvailable = true →
      env.toolAvailable = true → env.runCommand = .error m → executeTool env =
      { success := false, data := none, error := some m, warnings := none,
        executionTime := some env.elapsed } := by
    intro m h hc ht hr
    simp [executeTool, h, hc, ht, hr, Except.instMonad, Except.bind, Except.map,
      Except.pure, bind, Functor.map, pure]
  have k5 : ∀ m cr, env.parseParams = .ok () → env.configAvailable = true →
      env.toolAvailable = true → env.runCommand = .ok cr →
      env.processResult cr = .error m → executeTool env =
      { success := false, data := none, error := some m, warnings := none,
        executionTime := some env.elapsed } := by
    intro m cr h hc ht hr hpr
    simp [executeTool, h, hc, ht, hr, hpr, Except.instMonad, Except.bind, Except.map,
      Except.pure, bind, Functor.map, pure]
  refine ⟨k1, k2, k3, k4, k5, ?_⟩
  intro hs he
  rcases hp : env.parseParams with m | u
  · rw [k1 m hp] at he
    simp at he
  · cases u
    rcases hc : env.configAvailable with _ | _
    · rw [k2 hp hc] at he
      simp at he
    rcases ht : env.toolAvailable with _ | _
    · rw [k3 hp hc ht] at he
      simp at he
    rcases hr : env.runCommand with m | cr
    · rw [k4 m hp hc ht hr] at he
      simp at he
    rcases hpr : env.processResult cr with m | t
    · rw [k5 m cr hp hc ht hr hpr] at he
      simp at he
    refine ⟨cr, t, rfl, hpr, ?_, ?_⟩
    · by_cases hwl : (extractWarnings cr.stderr).length > 0 <;>
        simp [executeTool, hp, hc, ht, hr, hpr, hwl, Except.instMonad, Except.bind,
          Except.map, Except.pure, bind, Functor.map, pure] at hs <;>
        exact hs
    · by_cases hwl : (extractWarnings cr.stderr).length > 0 <;>
        simp [executeTool, hp, hc, ht, hr, hpr, hwl, Except.instMonad, Except.bind,
          Except.map, Except.pure, bind, Functor.map, pure] at he <;>
        exact he

/-- Witness for C2's amended statement: a failing parameter validation yields
the structured failure result with its error message. -/
theorem c2_boundary_results_witness :
    executeTool c2FailEnv =
      { success := false, data := none, error := some "Required", warnings := none,
        executionTime := some 7 } :=
  (c2_boundary_results c2FailEnv).1 "Required" rfl

/-- C5: in a module interface whose port names are distinct,
parenthesis-free identifiers (the data-model invariant), every port appears
exactly once as an explicit named binding `.name(name)` in the
device-under-test instantiation's connection list, and the synthesized
testbench contains that instantiation block. -/
theorem c5_dut_bindings (mi : ModuleInfo) (params : TestbenchGeneratorParams)
    (hnodup : (mi.ports.map PortInfo.name).Nodup)
    (hparen : ∀ p ∈ mi.ports, '(' ∉ p.name.data) :
    (∀ p ∈ mi.ports, (dutPortConnections mi).countP (bindingPred p) = 1) ∧
    (∃ pre post, generateTestbench mi params = pre ++ generateDUTInstantiation mi ++ post) := by
  constructor
  · intro p hp
    have hconn : dutPortConnections mi =
        (List.enumFrom 0 mi.ports).map (fun iq =>
          dutBinding iq.2 ++ (if iq.1 < mi.ports.length - 1 then "," else "")) := rfl
    have hPg : ∀ i q, q ∈ mi.ports →
        bindingPred p (dutBinding q ++ (if i < mi.ports.length - 1 then "," else "")) =
          decide (q.name = p.name) := by
      intro i q hq
      by_cases hname : q.name = p.name
      · have hb : dutBinding q = dutBinding p := by
          unfold dutBinding
          rw [hname]
        by_cases hi : i < mi.ports.length - 1
        · simp [bindingPred, hb, hi, hname]
        · simp [bindingPred, hb, hi, hname, strAppendEmpty]
      · have h1 : ¬ (dutBinding q ++ (if i < mi.ports.length - 1 then "," else "") =
            dutBinding p ++ ",") := fun hcontr =>
          hname (dutBindingClash p q _ "," (hparen p hp) (hparen q hq) hcontr)
        have h2 : ¬ (dutBinding q ++ (if i < mi.ports.length - 1 then "," else "") =
            dutBinding p) := fun hcontr =>
          hname (dutBindingClash p q _ "" (hparen p hp) (hparen q hq) (by
            rw [strAppendEmpty (dutBinding p)]
            exact hcontr))
        simp [bindingPred, h1, h2, hname]
    have hcount := countP_enumFrom_bindings (bindingPred p)
      (fun q => decide (q.name = p.name)) mi.ports.length mi.ports 0 hPg
    rw [hconn, hcount]
    have hone := countP_eq_one_of_nodup (mi.ports.map PortInfo.name) hnodup p.name
      (List.mem_map_of_mem PortInfo.name hp)
    rw [List.countP_map] at hone
    exact hone
  · refine ⟨generateHeader mi params ++ generateModuleDeclaration mi ++
      generateSignalDeclarations mi params,
      generateClockGeneration mi params ++ generateResetSequence mi params ++
      generateStimulus mi params ++
      (if params.generateCheckers then generateCheckers mi else "") ++
      (if params.generateAssertions then generateAssertions mi else "") ++
      (if params.generateCoverage then generateCoverage mi else "") ++
      generateWaveformDumping mi ++ "\nendmodule\n", ?_⟩
    simp [generateTestbench, strAppendAssoc]

/-- Witness for C5 at the two-port module. -/
theorem c5_dut_bindings_witness :
    (∀ p ∈ c5Module.ports, (dutPortConnections c5Module).countP (bindingPred p) = 1) ∧
    (∃ pre post, generateTestbench c5Module c5Config =
      pre ++ generateDUTInstantiation c5Module ++ post) :=
  c5_dut_bindings c5Module c5Config (by decide) (by decide)
